import Mathlib

/-!
Shallow embedding of the client-side scripts of the survey-builder web
application (repository `WebProject`): `static/admin_script.js`,
`static/survey_script.js`, and the share-modal admin-script variant
(the `sendEmail` function).  Each DOM event handler becomes a pure function
from the relevant client state, the user-supplied inputs, and an oracle for
the outcome of its (single) `fetch` call, to the resulting client state and
the list of network requests the handler issued.
-/

/-- JS `string.includes(c)` for a single character `c`: membership of `c`
among the characters of the string. -/
def jsIncludesChar (s : String) (c : Char) : Bool :=
  s.data.contains c

/-- Splitter for JS `string.split(sep)` with a single-character separator,
running over the character list with an accumulator for the current
segment (in reverse).  `"".split('/')` yields `[""]`, and consecutive or
trailing separators yield empty segments, as in JS. -/
def splitCharAux (sep : Char) : List Char → List Char → List (List Char)
  | [], acc => [acc.reverse]
  | c :: cs, acc =>
      if c = sep then acc.reverse :: splitCharAux sep cs []
      else splitCharAux sep cs (c :: acc)

/-- JS `string.split(sep)` for a single-character separator. -/
def jsSplit (s : String) (sep : Char) : List String :=
  (splitCharAux sep s.data []).map fun cs => String.mk cs

/-- JS `a || b` on an optional string field of a parsed JSON result:
`result.error || fallback` yields `fallback` when the field is absent
(`undefined`) or the empty string (both falsy), and the field otherwise. -/
def jsOr (v : Option String) (fallback : String) : String :=
  match v with
  | none => fallback
  | some s => if s = "" then fallback else s

/-- JS truthiness of an optional string value (`undefined`, `null` and `""`
are falsy; every other string is truthy). -/
def jsTruthyOpt (v : Option String) : Bool :=
  match v with
  | none => false
  | some s => s != ""

/-- Body of a `fetch` request: either a multipart `FormData` payload
(field name paired with the file placed under it) or a JSON object,
modelled as its ordered list of key/value string entries. -/
inductive RequestBody where
  | multipart (entries : List (String × String))
  | json (entries : List (String × String))
  deriving DecidableEq, Repr

/-- One network request issued through `fetch`. -/
structure FetchRequest where
  url : String
  method : String
  body : RequestBody
  deriving DecidableEq, Repr

/-- Outcome of an awaited `fetch`: either the call throws (network-level
failure) or it yields a response with ok-status `ok` whose parsed JSON
body is `result`. -/
inductive FetchOutcome (ρ : Type) where
  | networkError : FetchOutcome ρ
  | response (ok : Bool) (result : ρ) : FetchOutcome ρ
  deriving DecidableEq, Repr

/-- Client state of `static/admin_script.js`: the stored `currentSurveyId`
(`null` initially), the two text inputs, the visibility of the upload and
published screens, and the notification modal (`modalHidden` is true when
the `translate-x-full`/`opacity-0` classes are present). -/
structure AdminState where
  currentSurveyId : Option String
  shareLinkValue : String
  shareEmailValue : String
  uploadScreenHidden : Bool
  publishedScreenHidden : Bool
  modalHidden : Bool
  modalTitle : String
  modalMessage : String
  deriving DecidableEq, Repr

/-- `showModal(title, message)` of `admin_script.js`: sets the modal texts
and removes the hiding classes. -/
def showModal (s : AdminState) (title message : String) : AdminState :=
  { s with modalTitle := title, modalMessage := message, modalHidden := false }

/-- `hideModal()` of `admin_script.js`: adds the hiding classes back.
Wired to the modal close button, so the notification is dismissible. -/
def hideModal (s : AdminState) : AdminState :=
  { s with modalHidden := true }

/-- Parsed JSON result of `/upload` as read by the client
(`result.survey_id`, `result.survey_url`, `result.error`). -/
structure UploadResult where
  survey_id : String
  survey_url : String
  error : Option String
  deriving DecidableEq, Repr

/-- The `change` handler of the hidden file input in `admin_script.js`
(upload logic).  `file` is `event.target.files[0]` (`none` when no file was
selected).  Returns the new client state and the requests issued. -/
def uploadHandler (s : AdminState) (file : Option String)
    (outcome : FetchOutcome UploadResult) : AdminState × List FetchRequest :=
  match file with
  | none => (s, [])
  | some f =>
    let req : FetchRequest :=
      { url := "/upload", method := "POST",
        body := RequestBody.multipart [("surveyFile", f)] }
    match outcome with
    | FetchOutcome.networkError =>
        (showModal s "Error" "Could not connect to the server.", [req])
    | FetchOutcome.response ok result =>
        if ok then
          let s1 : AdminState :=
            { s with
              currentSurveyId := some result.survey_id,
              shareLinkValue := result.survey_url,
              uploadScreenHidden := true,
              publishedScreenHidden := false }
          (showModal s1 "Success!" "Your form has been published.", [req])
        else
          (showModal s "Upload Failed"
            (jsOr result.error "An unknown error occurred."), [req])

/-- Parsed JSON result of `/share_email` as read by the `emailButton`
handler (`result.message`, `result.error`). -/
structure ShareEmailResult where
  message : String
  error : Option String
  deriving DecidableEq, Repr

/-- The `click` handler of the email button in `admin_script.js`
(share-via-email logic).  Reads the email and link inputs from the state;
`!email || !email.includes('@')` rejects the address client-side. -/
def emailHandler (s : AdminState) (outcome : FetchOutcome ShareEmailResult) :
    AdminState × List FetchRequest :=
  let email := s.shareEmailValue
  let link := s.shareLinkValue
  if email = "" ∨ jsIncludesChar email '@' = false then
    (showModal s "Error" "Please enter a valid email address.", [])
  else
    let req : FetchRequest :=
      { url := "/share_email", method := "POST",
        body := RequestBody.json [("email", email), ("link", link)] }
    match outcome with
    | FetchOutcome.networkError =>
        (showModal s "Error" "Could not connect to the server.", [req])
    | FetchOutcome.response ok result =>
        if ok then (showModal s "Email Sent" result.message, [req])
        else (showModal s "Error" (jsOr result.error "Failed to send email."), [req])

/-- The `click` handler of the download button in `admin_script.js`
(download responses logic).  `!currentSurveyId` is true when the stored id
is `null` or the empty string; otherwise the browser is redirected to
`/download/<id>`.  Returns the new state and the navigation target. -/
def downloadHandler (s : AdminState) : AdminState × Option String :=
  match s.currentSurveyId with
  | none =>
      (showModal s "Error" "Cannot download responses, survey ID is missing.", none)
  | some id =>
      if id = "" then
        (showModal s "Error" "Cannot download responses, survey ID is missing.", none)
      else
        (s, some ("/download/" ++ id))

/-- Parsed JSON body received by the share-modal `sendEmail` variant
(`data.error`, `data.message`). -/
structure SendEmailData where
  message : Option String
  error : Option String
  deriving DecidableEq, Repr

/-- Outcome of the promise chain in `sendEmail`: the fetch/json step
rejects (network-level failure) or yields parsed data. -/
inductive SendEmailOutcome where
  | networkError : SendEmailOutcome
  | response (data : SendEmailData) : SendEmailOutcome
  deriving DecidableEq, Repr

/-- Observable result of one `sendEmail` invocation: the requests issued,
the alert shown (if any), and whether the share modal was closed. -/
structure SendEmailOut where
  requests : List FetchRequest
  alertMsg : Option String
  shareModalClosed : Bool
  deriving DecidableEq, Repr

/-- The `sendEmail()` function of the share-modal admin-script variant.
It validates only `!email` before fetching `/share_email`; branches on the
truthiness of `data.error` (not on the response status). -/
def sendEmail (email link : String) (outcome : SendEmailOutcome) : SendEmailOut :=
  if email = "" then
    { requests := [], alertMsg := some "Please enter an email address",
      shareModalClosed := false }
  else
    let req : FetchRequest :=
      { url := "/share_email", method := "POST",
        body := RequestBody.json [("email", email), ("link", link)] }
    match outcome with
    | SendEmailOutcome.networkError =>
        { requests := [req], alertMsg := some " Failed to connect to server.",
          shareModalClosed := false }
    | SendEmailOutcome.response data =>
        if jsTruthyOpt data.error then
          { requests := [req],
            alertMsg := some (" Error: " ++ data.error.getD ""),
            shareModalClosed := false }
        else
          { requests := [req],
            alertMsg := some (" " ++ jsOr data.message "Email sent successfully!"),
            shareModalClosed := true }

/-- One element of the survey form: its `name`, current `value`, the
default value `form.reset()` restores, and its `disabled` flag. -/
structure FormElement where
  name : String
  value : String
  defaultValue : String
  disabled : Bool
  deriving DecidableEq, Repr

/-- The survey form: its ordered elements. -/
structure SurveyForm where
  elements : List FormElement
  deriving DecidableEq, Repr

/-- `new FormData(form)`: the ordered (name, value) entries contributed by
the named, non-disabled elements of the form. -/
def formDataEntries (f : SurveyForm) : List (String × String) :=
  (f.elements.filter (fun e => e.name != "" && !e.disabled)).map
    (fun e => (e.name, e.value))

/-- One JS property assignment `obj[k] = v` on an object represented as an
ordered association list: an existing key keeps its position and gets the
new value, a new key is appended. -/
def objAssign (obj : List (String × String)) (k v : String) :
    List (String × String) :=
  if obj.any (fun p => p.1 == k) then
    obj.map (fun p => if p.1 == k then (k, v) else p)
  else obj ++ [(k, v)]

/-- `formData.forEach((value, key) => { data[key] = value; })`: builds the
plain object sent as the JSON body.  A key occurring several times in the
form data keeps only its last value. -/
def jsObjectOfEntries (entries : List (String × String)) :
    List (String × String) :=
  entries.foldl (fun obj p => objAssign obj p.1 p.2) []

/-- `pathParts[pathParts.length - 1]` after
`window.location.pathname.split('/')`: the last '/'-separated segment of
the path (`jsSplit` never returns an empty list). -/
def lastPathSegment (path : String) : String :=
  (jsSplit path '/').getLastD ""

/-- `form.reset()`: every element's value goes back to its default. -/
def resetForm (f : SurveyForm) : SurveyForm :=
  { elements := f.elements.map (fun e => { e with value := e.defaultValue }) }

/-- `Array.from(form.elements).forEach(element => element.disabled = true)`. -/
def disableAll (f : SurveyForm) : SurveyForm :=
  { elements := f.elements.map (fun e => { e with disabled := true }) }

/-- Parsed JSON result of `/submit/<survey_id>` as read by the client. -/
structure SubmitResult where
  error : Option String
  deriving DecidableEq, Repr

/-- Observable result of one survey-form `submit` handler invocation. -/
structure SubmitOut where
  requests : List FetchRequest
  alertMsg : Option String
  successModalVisible : Bool
  form : SurveyForm
  deriving DecidableEq, Repr

/-- The `submit` handler of `static/survey_script.js`: extracts the survey
id as the last path segment, aborts with an alert when it is empty,
otherwise POSTs the form data (converted to a plain object) as JSON to
`/submit/<survey_id>`; on ok it shows the success modal, resets the form
and disables all its elements; on a non-ok response or a thrown error it
alerts. -/
def submitHandler (pathname : String) (form : SurveyForm)
    (outcome : FetchOutcome SubmitResult) : SubmitOut :=
  let surveyId := lastPathSegment pathname
  if surveyId = "" then
    { requests := [],
      alertMsg := some "Error: Cannot submit form without a survey ID.",
      successModalVisible := false, form := form }
  else
    let data := jsObjectOfEntries (formDataEntries form)
    let req : FetchRequest :=
      { url := "/submit/" ++ surveyId, method := "POST",
        body := RequestBody.json data }
    match outcome with
    | FetchOutcome.networkError =>
        { requests := [req],
          alertMsg := some "An error occurred while submitting the form.",
          successModalVisible := false, form := form }
    | FetchOutcome.response ok result =>
        if ok then
          { requests := [req], alertMsg := none, successModalVisible := true,
            form := disableAll (resetForm form) }
        else
          { requests := [req],
            alertMsg := some ("Error: " ++ jsOr result.error "Could not submit survey."),
            successModalVisible := false, form := form }

/-- A sample admin-page state (valid email entered, no survey id yet),
used to instantiate the theorems below at concrete inputs. -/
def sampleAdmin : AdminState :=
  { currentSurveyId := none, shareLinkValue := "http://h/survey/s1",
    shareEmailValue := "a@b.com", uploadScreenHidden := false,
    publishedScreenHidden := true, modalHidden := true,
    modalTitle := "", modalMessage := "" }

/-- A sample survey form with two fields of distinct names. -/
def sampleForm : SurveyForm :=
  { elements := [
      { name := "q1", value := "yes", defaultValue := "", disabled := false },
      { name := "q2", value := "42", defaultValue := "", disabled := false }] }

/-- A survey form with two fields sharing the name "q" (as a checkbox
group produces), submitting the two values "a" and "b". -/
def dupForm : SurveyForm :=
  { elements := [
      { name := "q", value := "a", defaultValue := "", disabled := false },
      { name := "q", value := "b", defaultValue := "", disabled := false }] }


/-- Claim C3: for every chosen file, the client sends it as a POST to
`/upload` under the multipart form field name `surveyFile`; on an ok
response it stores the returned `survey_id` as the current survey id,
places the returned `survey_url` into the share-link input, and switches
from the upload screen to the published screen. -/
theorem C3_upload_success (s : AdminState) (f : String)
    (o : FetchOutcome UploadResult) (r : UploadResult) :
    (uploadHandler s (some f) o).2 =
      [{ url := "/upload", method := "POST",
         body := RequestBody.multipart [("surveyFile", f)] }] ∧
    (uploadHandler s (some f) (FetchOutcome.response true r)).1.currentSurveyId
      = some r.survey_id ∧
    (uploadHandler s (some f) (FetchOutcome.response true r)).1.shareLinkValue
      = r.survey_url ∧
    (uploadHandler s (some f) (FetchOutcome.response true r)).1.uploadScreenHidden
      = true ∧
    (uploadHandler s (some f) (FetchOutcome.response true r)).1.publishedScreenHidden
      = false := by
  refine ⟨?_, ?_, ?_, ?_, ?_⟩
  · rcases o with _ | ⟨ok, r'⟩
    · simp [uploadHandler, showModal]
    · cases ok <;> simp [uploadHandler, showModal]
  all_goals simp [uploadHandler, showModal]

/-- Claim C4: for every `/upload` request answered with a non-ok response,
the client state is unchanged — the stored survey id, the share-link input
and the visibility of both screens keep their previous values — and only
the error modal is shown. -/
theorem C4_upload_error (s : AdminState) (f : String) (r : UploadResult) :
    (uploadHandler s (some f) (FetchOutcome.response false r)).1 =
      showModal s "Upload Failed" (jsOr r.error "An unknown error occurred.") ∧
    (uploadHandler s (some f) (FetchOutcome.response false r)).1.currentSurveyId
      = s.currentSurveyId ∧
    (uploadHandler s (some f) (FetchOutcome.response false r)).1.shareLinkValue
      = s.shareLinkValue ∧
    (uploadHandler s (some f) (FetchOutcome.response false r)).1.uploadScreenHidden
      = s.uploadScreenHidden ∧
    (uploadHandler s (some f) (FetchOutcome.response false r)).1.publishedScreenHidden
      = s.publishedScreenHidden ∧
    (uploadHandler s (some f) (FetchOutcome.response false r)).1.modalHidden
      = false ∧
    (uploadHandler s (some f) (FetchOutcome.response false r)).1.modalTitle
      = "Upload Failed" := by
  refine ⟨?_, ?_, ?_, ?_, ?_, ?_, ?_⟩ <;> simp [uploadHandler, showModal]

/-- Claim C7: no handler ever retries a request — each invocation of the
upload, email-share, send-email and submit handlers issues at most one
fetch call. -/
theorem C7_no_retry (s : AdminState) (file : Option String)
    (o1 : FetchOutcome UploadResult) (o2 : FetchOutcome ShareEmailResult)
    (pathname : String) (form : SurveyForm) (o3 : FetchOutcome SubmitResult)
    (email link : String) (o4 : SendEmailOutcome) :
    (uploadHandler s file o1).2.length ≤ 1 ∧
    (emailHandler s o2).2.length ≤ 1 ∧
    (submitHandler pathname form o3).requests.length ≤ 1 ∧
    (sendEmail email link o4).requests.length ≤ 1 := by
  refine ⟨?_, ?_, ?_, ?_⟩
  · rcases file with _ | f
    · simp [uploadHandler]
    · rcases o1 with _ | ⟨ok, r⟩
      · simp [uploadHandler]
      · cases ok <;> simp [uploadHandler]
  · by_cases h : s.shareEmailValue = "" ∨ jsIncludesChar s.shareEmailValue '@' = false
    · simp [emailHandler, h]
    · rcases o2 with _ | ⟨ok, r⟩
      · simp [emailHandler, h]
      · cases ok <;> simp [emailHandler, h]
  · by_cases h : lastPathSegment pathname = ""
    · simp [submitHandler, h]
    · rcases o3 with _ | ⟨ok, r⟩
      · simp [submitHandler, h]
      · cases ok <;> simp [submitHandler, h]
  · by_cases h : email = ""
    · simp [sendEmail, h]
    · rcases o4 with _ | d
      · simp [sendEmail, h]
      · by_cases he : jsTruthyOpt d.error <;> simp [sendEmail, h, he]

/-- Claim C8: the download button navigates to `/download/<id>` exactly
when a non-empty survey id is stored; when the stored id is `null`, it
shows the error modal and performs no navigation. -/
theorem C8_download (s : AdminState) :
    (s.currentSurveyId = none →
      (downloadHandler s).2 = none ∧
      (downloadHandler s).1 =
        showModal s "Error" "Cannot download responses, survey ID is missing.") ∧
    (∀ i, s.currentSurveyId = some i → i ≠ "" →
      (downloadHandler s).2 = some ("/download/" ++ i) ∧
      (downloadHandler s).1 = s) ∧
    (∀ u, (downloadHandler s).2 = some u →
      ∃ i, s.currentSurveyId = some i ∧ i ≠ "" ∧ u = "/download/" ++ i) := by
  refine ⟨?_, ?_, ?_⟩
  · intro h; simp [downloadHandler, h]
  · intro i h hne; simp [downloadHandler, h, hne]
  · intro u hu
    rcases hcs : s.currentSurveyId with _ | i
    · simp [downloadHandler, hcs] at hu
    · by_cases hi : i = ""
      · simp [downloadHandler, hcs, hi] at hu
      · simp [downloadHandler, hcs, hi] at hu
        exact ⟨i, rfl, hi, hu.symm⟩

/-- Claim C8 witness: with no stored id the click shows the error modal
and does not navigate; with stored id "s1" it navigates to
`/download/s1`. -/
theorem C8_download_witness :
    ((downloadHandler sampleAdmin).2 = none ∧
      (downloadHandler sampleAdmin).1 =
        showModal sampleAdmin "Error"
          "Cannot download responses, survey ID is missing.") ∧
    (downloadHandler { sampleAdmin with currentSurveyId := some "s1" }).2 =
      some ("/download/" ++ "s1") :=
  ⟨(C8_download sampleAdmin).1 rfl,
   ((C8_download { sampleAdmin with currentSurveyId := some "s1" }).2.1 "s1"
      rfl (by decide)).1⟩

/-- Claim C9: on an ok response to a survey submission the client shows
the success modal, resets the form (every value back to its default) and
disables every element of the form. -/
theorem C9_success_disables (pathname : String) (form : SurveyForm)
    (r : SubmitResult) (h : lastPathSegment pathname ≠ "") :
    (submitHandler pathname form (FetchOutcome.response true r)).successModalVisible
      = true ∧
    (submitHandler pathname form (FetchOutcome.response true r)).form =
      disableAll (resetForm form) ∧
    (∀ e ∈ (submitHandler pathname form (FetchOutcome.response true r)).form.elements,
      e.disabled = true ∧ e.value = e.defaultValue) := by
  refine ⟨?_, ?_, ?_⟩
  · simp [submitHandler, h]
  · simp [submitHandler, h]
  · have hform : (submitHandler pathname form (FetchOutcome.response true r)).form =
        disableAll (resetForm form) := by simp [submitHandler, h]
    intro e he
    rw [hform] at he
    simp only [disableAll, resetForm, List.map_map, Function.comp,
      List.mem_map] at he
    obtain ⟨a, -, rfl⟩ := he
    exact ⟨rfl, rfl⟩

/-- Claim C9 witness: the theorem at the sample form on path
`/survey/s1`. -/
theorem C9_success_disables_witness :
    (submitHandler "/survey/s1" sampleForm
        (FetchOutcome.response true { error := none })).successModalVisible = true ∧
    (submitHandler "/survey/s1" sampleForm
        (FetchOutcome.response true { error := none })).form =
      disableAll (resetForm sampleForm) :=
  ⟨(C9_success_disables "/survey/s1" sampleForm { error := none } (by decide)).1,
   (C9_success_disables "/survey/s1" sampleForm { error := none } (by decide)).2.1⟩

/-- Claim C10: the survey id used for submission is the last
'/'-separated segment of the page's path; when that segment is empty the
handler alerts and sends no request, and otherwise every request it sends
goes to `/submit/<that segment>`. -/
theorem C10_survey_id (pathname : String) (form : SurveyForm)
    (o : FetchOutcome SubmitResult) :
    (lastPathSegment pathname = "" →
      (submitHandler pathname form o).requests = [] ∧
      (submitHandler pathname form o).alertMsg =
        some "Error: Cannot submit form without a survey ID.") ∧
    (lastPathSegment pathname ≠ "" →
      ∀ r ∈ (submitHandler pathname form o).requests,
        r.url = "/submit/" ++ lastPathSegment pathname) := by
  constructor
  · intro h; constructor <;> simp [submitHandler, h]
  · intro h r hr
    rcases o with _ | ⟨ok, res⟩
    · simp [submitHandler, h] at hr
      simp [hr]
    · cases ok <;> simp [submitHandler, h] at hr <;> simp [hr]

/-- Claim C10 witness: a trailing slash aborts with the alert and no
request; on `/survey/s9` the single request targets `/submit/s9`. -/
theorem C10_survey_id_witness :
    ((submitHandler "/survey/" sampleForm FetchOutcome.networkError).requests = [] ∧
      (submitHandler "/survey/" sampleForm FetchOutcome.networkError).alertMsg =
        some "Error: Cannot submit form without a survey ID.") ∧
    ({ url := "/submit/" ++ "s9", method := "POST",
       body := RequestBody.json (jsObjectOfEntries (formDataEntries sampleForm)) }
        : FetchRequest).url = "/submit/" ++ lastPathSegment "/survey/s9" :=
  ⟨(C10_survey_id "/survey/" sampleForm FetchOutcome.networkError).1 (by decide),
   (C10_survey_id "/survey/s9" sampleForm FetchOutcome.networkError).2
     (by decide) _ (by decide)⟩

/-- Claim C1 counterexample: in the share-modal variant, `sendEmail` sends
the `/share_email` request for the nonempty address "abc" even though it
lacks an '@' character: the syntactically invalid email is not rejected
client-side there. -/
theorem C1_counterexample :
    jsIncludesChar "abc" '@' = false ∧
    (sendEmail "abc" "http://h/survey/s1"
        (SendEmailOutcome.response { message := some "ok", error := none })).requests =
      [{ url := "/share_email", method := "POST",
         body := RequestBody.json
           [("email", "abc"), ("link", "http://h/survey/s1")] }] := by
  decide

/-- Claim C1 (amended): the `emailButton` handler of
`static/admin_script.js` rejects an empty or '@'-less email client-side
(error modal, no request) and issues exactly the one `/share_email`
request otherwise; the share-modal `sendEmail` variant rejects only the
empty email client-side. -/
theorem C1_amended (s : AdminState) (o : FetchOutcome ShareEmailResult)
    (link : String) (o2 : SendEmailOutcome) :
    (s.shareEmailValue = "" ∨ jsIncludesChar s.shareEmailValue '@' = false →
      (emailHandler s o).2 = [] ∧
      (emailHandler s o).1 =
        showModal s "Error" "Please enter a valid email address.") ∧
    (¬(s.shareEmailValue = "" ∨ jsIncludesChar s.shareEmailValue '@' = false) →
      (emailHandler s o).2 =
        [{ url := "/share_email", method := "POST",
           body := RequestBody.json
             [("email", s.shareEmailValue), ("link", s.shareLinkValue)] }]) ∧
    (sendEmail "" link o2).requests = [] := by
  refine ⟨?_, ?_, ?_⟩
  · intro h; constructor <;> simp [emailHandler, h]
  · intro h
    rcases o with _ | ⟨ok, r⟩
    · simp [emailHandler, h]
    · cases ok <;> simp [emailHandler, h]
  · simp [sendEmail]

/-- Claim C1 (amended) witness: the empty address is rejected with the
error modal, the valid sample address produces the one request, and
`sendEmail` with an empty address sends nothing. -/
theorem C1_amended_witness :
    ((emailHandler { sampleAdmin with shareEmailValue := "" }
        FetchOutcome.networkError).2 = [] ∧
      (emailHandler { sampleAdmin with shareEmailValue := "" }
          FetchOutcome.networkError).1 =
        showModal { sampleAdmin with shareEmailValue := "" } "Error"
          "Please enter a valid email address.") ∧
    (emailHandler sampleAdmin FetchOutcome.networkError).2 =
      [{ url := "/share_email", method := "POST",
         body := RequestBody.json
           [("email", sampleAdmin.shareEmailValue),
            ("link", sampleAdmin.shareLinkValue)] }] ∧
    (sendEmail "" "http://h/survey/s1" SendEmailOutcome.networkError).requests
      = [] :=
  ⟨(C1_amended { sampleAdmin with shareEmailValue := "" }
      FetchOutcome.networkError "x" SendEmailOutcome.networkError).1
        (Or.inl (by decide)),
   (C1_amended sampleAdmin FetchOutcome.networkError "x"
      SendEmailOutcome.networkError).2.1 (by decide),
   (C1_amended sampleAdmin FetchOutcome.networkError "http://h/survey/s1"
      SendEmailOutcome.networkError).2.2⟩

/-- `objAssign` appends a fresh binding when the key is not already a key
of the object. -/
theorem objAssign_of_forall_ne (obj : List (String × String)) (k v : String)
    (h : ∀ p ∈ obj, p.1 ≠ k) : objAssign obj k v = obj ++ [(k, v)] := by
  unfold objAssign
  rw [if_neg]
  simp only [List.any_eq_true, beq_iff_eq, not_exists, not_and]
  intro p hp
  exact h p hp

/-- Folding JS object assignment over entries with pairwise-distinct keys
(also distinct from the accumulator's keys) just appends them. -/
theorem foldl_objAssign_of_nodup (entries : List (String × String)) :
    ∀ obj : List (String × String),
      ((obj ++ entries).map Prod.fst).Nodup →
      entries.foldl (fun o p => objAssign o p.1 p.2) obj = obj ++ entries := by
  induction entries with
  | nil => intro obj _; simp
  | cons p rest ih =>
    intro obj h
    obtain ⟨k, v⟩ := p
    have hobj : ∀ q ∈ obj, q.1 ≠ k := by
      intro q hq hqk
      have hnd := h
      rw [List.map_append, List.nodup_append] at hnd
      exact hnd.2.2 (List.mem_map_of_mem Prod.fst hq)
        (by simp [hqk])
    rw [List.foldl_cons]
    have hstep : objAssign obj k v = obj ++ [(k, v)] :=
      objAssign_of_forall_ne obj k v hobj
    rw [hstep]
    have happ : (obj ++ [(k, v)]) ++ rest = obj ++ (k, v) :: rest := by
      simp
    have := ih (obj ++ [(k, v)]) (by rw [happ]; exact h)
    rw [this, happ]

/-- With pairwise-distinct keys, converting form-data entries to a JS
object keeps every entry. -/
theorem jsObjectOfEntries_of_nodup (entries : List (String × String))
    (h : (entries.map Prod.fst).Nodup) :
    jsObjectOfEntries entries = entries := by
  have := foldl_objAssign_of_nodup entries [] (by simpa using h)
  simpa [jsObjectOfEntries] using this

/-- Claim C2 counterexample: with two fields sharing the name "q"
(values "a" then "b"), the form data contains the pair ("q", "a"), yet
the JSON body the client sends is `[("q", "b")]` — conversion through
`data[key] = value` keeps only the last value, so not every form-data
pair reaches the body. -/
theorem C2_counterexample :
    ("q", "a") ∈ formDataEntries dupForm ∧
    (submitHandler "/survey/s1" dupForm
        (FetchOutcome.response true { error := none })).requests =
      [{ url := "/submit/s1", method := "POST",
         body := RequestBody.json [("q", "b")] }] ∧
    ¬ ("q", "a") ∈ [(("q" : String), ("b" : String))] := by
  decide

/-- Claim C2 (amended): every submission sends exactly one POST to
`/submit/<survey_id>` whose JSON body is the form data folded through JS
object assignment — each field name mapped to its last submitted value;
when the field names are pairwise distinct, the body contains every
(name, value) pair of the form data. -/
theorem C2_amended (pathname : String) (form : SurveyForm)
    (o : FetchOutcome SubmitResult) (h : lastPathSegment pathname ≠ "") :
    (submitHandler pathname form o).requests =
      [{ url := "/submit/" ++ lastPathSegment pathname, method := "POST",
         body := RequestBody.json (jsObjectOfEntries (formDataEntries form)) }] ∧
    (((formDataEntries form).map Prod.fst).Nodup →
      ∀ kv ∈ formDataEntries form,
        kv ∈ jsObjectOfEntries (formDataEntries form)) := by
  constructor
  · rcases o with _ | ⟨ok, res⟩
    · simp [submitHandler, h]
    · cases ok <;> simp [submitHandler, h]
  · intro hnd kv hkv
    rw [jsObjectOfEntries_of_nodup _ hnd]
    exact hkv

/-- Claim C2 (amended) witness: the sample form (distinct names) on
`/survey/s1` produces the single request with the full field mapping, and
its first pair is in the body. -/
theorem C2_amended_witness :
    (submitHandler "/survey/s1" sampleForm FetchOutcome.networkError).requests =
      [{ url := "/submit/" ++ lastPathSegment "/survey/s1", method := "POST",
         body := RequestBody.json
           (jsObjectOfEntries (formDataEntries sampleForm)) }] ∧
    ("q1", "yes") ∈ jsObjectOfEntries (formDataEntries sampleForm) :=
  ⟨(C2_amended "/survey/s1" sampleForm FetchOutcome.networkError (by decide)).1,
   (C2_amended "/survey/s1" sampleForm FetchOutcome.networkError (by decide)).2
     (by decide) ("q1", "yes") (by decide)⟩

/-- Claim C5 counterexample: when the submission fetch throws, the survey
page alerts "An error occurred while submitting the form." — not the
"Could not connect to the server." message the claim requires for all
request paths. -/
theorem C5_counterexample :
    (submitHandler "/survey/s1" sampleForm FetchOutcome.networkError).alertMsg =
      some "An error occurred while submitting the form." ∧
    (submitHandler "/survey/s1" sampleForm FetchOutcome.networkError).alertMsg ≠
      some "Could not connect to the server." := by
  decide

/-- Claim C5 (amended): every network-level failure is caught, but the
message differs by path: the upload and email-share handlers of
`static/admin_script.js` show "Could not connect to the server.", the
survey submit handler alerts "An error occurred while submitting the
form.", and the share-modal `sendEmail` variant alerts
" Failed to connect to server.". -/
theorem C5_amended (s : AdminState) (f pathname : String) (form : SurveyForm)
    (email link : String)
    (hm : ¬(s.shareEmailValue = "" ∨ jsIncludesChar s.shareEmailValue '@' = false))
    (hid : lastPathSegment pathname ≠ "") (he : email ≠ "") :
    (uploadHandler s (some f) FetchOutcome.networkError).1 =
      showModal s "Error" "Could not connect to the server." ∧
    (emailHandler s FetchOutcome.networkError).1 =
      showModal s "Error" "Could not connect to the server." ∧
    (submitHandler pathname form FetchOutcome.networkError).alertMsg =
      some "An error occurred while submitting the form." ∧
    (sendEmail email link SendEmailOutcome.networkError).alertMsg =
      some " Failed to connect to server." := by
  refine ⟨?_, ?_, ?_, ?_⟩
  · simp [uploadHandler]
  · simp [emailHandler, hm]
  · simp [submitHandler, hid]
  · simp [sendEmail, he]

/-- Claim C5 (amended) witness: the theorem at the sample state, path
`/survey/s1`, and address `a@b.com`. -/
theorem C5_amended_witness :
    (uploadHandler sampleAdmin (some "f.xlsx") FetchOutcome.networkError).1 =
      showModal sampleAdmin "Error" "Could not connect to the server." ∧
    (submitHandler "/survey/s1" sampleForm FetchOutcome.networkError).alertMsg =
      some "An error occurred while submitting the form." ∧
    (sendEmail "a@b.com" "http://h/survey/s1"
        SendEmailOutcome.networkError).alertMsg =
      some " Failed to connect to server." :=
  ⟨(C5_amended sampleAdmin "f.xlsx" "/survey/s1" sampleForm "a@b.com"
      "http://h/survey/s1" (by decide) (by decide) (by decide)).1,
   (C5_amended sampleAdmin "f.xlsx" "/survey/s1" sampleForm "a@b.com"
      "http://h/survey/s1" (by decide) (by decide) (by decide)).2.2.1,
   (C5_amended sampleAdmin "f.xlsx" "/survey/s1" sampleForm "a@b.com"
      "http://h/survey/s1" (by decide) (by decide) (by decide)).2.2.2⟩

/-- Claim C6: every failed action displays the `error` message of the
response payload — the admin handlers in the notification modal, which
`hideModal` (wired to the close button) returns to its hidden state, and
the survey page and share-modal variant in alerts. -/
theorem C6_error_display (s : AdminState) (f sid su msg e : String)
    (he : e ≠ "")
    (hm : ¬(s.shareEmailValue = "" ∨ jsIncludesChar s.shareEmailValue '@' = false))
    (pathname : String) (form : SurveyForm)
    (hid : lastPathSegment pathname ≠ "")
    (email link : String) (hemail : email ≠ "") (t m : String) :
    (uploadHandler s (some f)
        (FetchOutcome.response false
          { survey_id := sid, survey_url := su, error := some e })).1 =
      showModal s "Upload Failed" e ∧
    (emailHandler s
        (FetchOutcome.response false { message := msg, error := some e })).1 =
      showModal s "Error" e ∧
    (submitHandler pathname form
        (FetchOutcome.response false { error := some e })).alertMsg =
      some ("Error: " ++ e) ∧
    (sendEmail email link
        (SendEmailOutcome.response { message := none, error := some e })).alertMsg =
      some (" Error: " ++ e) ∧
    (showModal s t m).modalHidden = false ∧
    (hideModal (showModal s t m)).modalHidden = true := by
  refine ⟨?_, ?_, ?_, ?_, ?_, ?_⟩
  · simp [uploadHandler, jsOr, he]
  · simp [emailHandler, hm, jsOr, he]
  · simp [submitHandler, hid, jsOr, he]
  · simp [sendEmail, hemail, jsTruthyOpt, he]
  · simp [showModal]
  · simp [hideModal]

/-- Claim C6 witness: the theorem at the sample state with payload error
"boom". -/
theorem C6_error_display_witness :
    (uploadHandler sampleAdmin (some "f.xlsx")
        (FetchOutcome.response false
          { survey_id := "", survey_url := "", error := some "boom" })).1 =
      showModal sampleAdmin "Upload Failed" "boom" ∧
    (submitHandler "/survey/s1" sampleForm
        (FetchOutcome.response false { error := some "boom" })).alertMsg =
      some ("Error: " ++ "boom") ∧
    (hideModal (showModal sampleAdmin "T" "M")).modalHidden = true :=
  ⟨(C6_error_display sampleAdmin "f.xlsx" "" "" "ok" "boom" (by decide)
      (by decide) "/survey/s1" sampleForm (by decide) "a@b.com" "l"
      (by decide) "T" "M").1,
   (C6_error_display sampleAdmin "f.xlsx" "" "" "ok" "boom" (by decide)
      (by decide) "/survey/s1" sampleForm (by decide) "a@b.com" "l"
      (by decide) "T" "M").2.2.1,
   (C6_error_display sampleAdmin "f.xlsx" "" "" "ok" "boom" (by decide)
      (by decide) "/survey/s1" sampleForm (by decide) "a@b.com" "l"
      (by decide) "T" "M").2.2.2.2.2⟩
